import Mathlib

/-!
Shallow embedding of the KiloCheck extraction-to-result pipeline:
error taxonomy and classification (`src/app/layout.tsx`, errorHandling part),
retry driver (`src/app/layout.tsx`, retryUtils part), circuit breaker,
weight normalization (`src/lib/WeightNormalizer.ts`), unit-price calculation
(`src/unnamed/part_002`, UnitPriceCalculator), and the two post-call
validation paths (`src/src/lib/secureImageProcessing.ts` POST handler and
`src/components/DataExtractor.tsx` validateExtractedData).

Numbers are modelled as rationals; JavaScript truthiness on numbers and
strings is made explicit (`jsOrNat`, `jsOrString`).  Timing (backoff delays,
jitter, sleeping) is not observable in any claim and is omitted; the retry
driver instead returns a trace recording the result, the number of times the
operation was invoked, and every observer (`onRetry`) invocation.
-/

/-- The closed error-code enum from `src/KiloCheck Clean/src/types/index.ts`. -/
inductive ErrorCode
  | INVALID_IMAGE_FORMAT
  | IMAGE_TOO_LARGE
  | NO_PRICE_DETECTED
  | NO_WEIGHT_DETECTED
  | NO_PRODUCT_DETECTED
  | API_RATE_LIMIT
  | API_ERROR
  | NETWORK_ERROR
deriving DecidableEq

/-- The three error categories from the errorHandling module. -/
inductive ErrorCategory
  | USER_ERROR
  | SYSTEM_ERROR
  | CRITICAL_ERROR
deriving DecidableEq

/-- The `AppError` interface from the types module. -/
structure AppError where
  code : ErrorCode
  message : String
  userMessage : String
  suggestions : List String
  recoverable : Bool
deriving DecidableEq

/-- A thrown JavaScript value: either a structured `AppError` or a plain
`Error` carrying only a message (e.g. `new Error('Circuit breaker is OPEN')`). -/
inductive JSError
  | app (e : AppError)
  | generic (msg : String)
deriving DecidableEq

/-- `ERROR_CATEGORIES` record mapping each code to its category. -/
def ERROR_CATEGORIES : ErrorCode → ErrorCategory
  | .INVALID_IMAGE_FORMAT => .USER_ERROR
  | .IMAGE_TOO_LARGE => .USER_ERROR
  | .NO_PRICE_DETECTED => .USER_ERROR
  | .NO_WEIGHT_DETECTED => .USER_ERROR
  | .NO_PRODUCT_DETECTED => .USER_ERROR
  | .API_RATE_LIMIT => .SYSTEM_ERROR
  | .NETWORK_ERROR => .SYSTEM_ERROR
  | .API_ERROR => .CRITICAL_ERROR

/-- One entry of the `ERROR_MESSAGES` localized table. -/
structure ErrorMessageInfo where
  title : String
  message : String
  suggestions : List String

/-- The static `ERROR_MESSAGES` table (Spanish user-facing text). -/
def ERROR_MESSAGES : ErrorCode → ErrorMessageInfo
  | .INVALID_IMAGE_FORMAT =>
    { title := "Formato no válido"
      message := "El formato de imagen no es compatible. Usa JPEG, PNG o WebP."
      suggestions := ["Convierte la imagen a JPEG, PNG o WebP",
                      "Toma una nueva foto con la cámara",
                      "Verifica que el archivo no esté dañado"] }
  | .IMAGE_TOO_LARGE =>
    { title := "Imagen demasiado grande"
      message := "La imagen es demasiado grande. El tamaño máximo es 10MB."
      suggestions := ["Reduce la resolución de la imagen",
                      "Comprime la imagen antes de subirla",
                      "Toma una nueva foto con menor calidad"] }
  | .NO_PRICE_DETECTED =>
    { title := "Precio no encontrado"
      message := "No pudimos encontrar el precio en la imagen. Asegúrate de que esté visible y enfocado."
      suggestions := ["Toma la foto más cerca del precio",
                      "Asegúrate de que haya buena iluminación",
                      "Verifica que el precio esté claramente visible",
                      "Evita reflejos o sombras sobre el precio"] }
  | .NO_WEIGHT_DETECTED =>
    { title := "Peso no encontrado"
      message := "No pudimos identificar el peso o volumen. Verifica que esta información esté clara en la etiqueta."
      suggestions := ["Asegúrate de que el peso/volumen esté visible",
                      "Toma la foto más cerca de la información nutricional",
                      "Verifica que la etiqueta esté completa en la imagen",
                      "Busca información como \"500g\", \"1L\", etc."] }
  | .NO_PRODUCT_DETECTED =>
    { title := "Producto no identificado"
      message := "No pudimos identificar el nombre del producto. Asegúrate de que esté visible en la etiqueta."
      suggestions := ["Toma la foto incluyendo el nombre del producto",
                      "Asegúrate de que el texto esté enfocado",
                      "Verifica que la etiqueta esté completa",
                      "Evita cortar el nombre del producto en la foto"] }
  | .API_RATE_LIMIT =>
    { title := "Demasiadas solicitudes"
      message := "Has realizado demasiadas solicitudes. Espera un momento e intenta de nuevo."
      suggestions := ["Espera 30 segundos antes de intentar de nuevo",
                      "Evita subir múltiples imágenes muy rápido",
                      "Intenta de nuevo en unos minutos"] }
  | .NETWORK_ERROR =>
    { title := "Error de conexión"
      message := "Parece que hay un problema de conexión. Verifica tu internet e intenta de nuevo."
      suggestions := ["Verifica tu conexión a internet",
                      "Intenta de nuevo en unos momentos",
                      "Cambia a una red más estable si es posible",
                      "Recarga la página si el problema persiste"] }
  | .API_ERROR =>
    { title := "Error del servidor"
      message := "Ha ocurrido un error en nuestros servidores. Intenta de nuevo en unos momentos."
      suggestions := ["Intenta de nuevo en unos minutos",
                      "Si el problema persiste, contacta soporte",
                      "Verifica que la imagen sea válida"] }

/-- JavaScript `a || b` on strings: the empty string is falsy. -/
def jsOrString (a b : String) : String := if a = "" then b else a

/-- JavaScript `a || b` on non-negative numbers: `0` is falsy. -/
def jsOrNat (a b : Nat) : Nat := if a = 0 then b else a

/-- `getErrorCategory` from the errorHandling module. -/
def getErrorCategory (code : ErrorCode) : ErrorCategory := ERROR_CATEGORIES code

/-- `createAppError(code, originalMessage?, customSuggestions?)`.
`originalMessage || errorInfo.message` uses string truthiness;
`customSuggestions || errorInfo.suggestions` keeps any supplied array
(arrays, even empty ones, are truthy in JavaScript). -/
def createAppError (code : ErrorCode) (originalMessage : Option String := none)
    (customSuggestions : Option (List String) := none) : AppError :=
  let errorInfo := ERROR_MESSAGES code
  let category := ERROR_CATEGORIES code
  { code := code
    message := match originalMessage with
      | some m => jsOrString m errorInfo.message
      | none => errorInfo.message
    userMessage := errorInfo.message
    suggestions := customSuggestions.getD errorInfo.suggestions
    recoverable := decide (category ≠ ErrorCategory.CRITICAL_ERROR) }

/-- `API_RETRY_STRATEGY.retryableErrors` from the errorHandling module. -/
def API_RETRY_STRATEGY_retryableErrors : List ErrorCode :=
  [.NETWORK_ERROR, .API_RATE_LIMIT, .API_ERROR]

/-- Retry options after merging with `DEFAULT_RETRY_OPTIONS`
(delay-related fields are omitted: they only affect sleep durations). -/
structure RetryOpts where
  maxRetries : Nat := 3
  retryableErrors : List ErrorCode := API_RETRY_STRATEGY_retryableErrors

/-- `DEFAULT_RETRY_OPTIONS`. -/
def DEFAULT_RETRY_OPTIONS : RetryOpts := {}

/-- `shouldRetryError(error, retryableErrors)`. -/
def shouldRetryError (error : AppError) (retryableErrors : List ErrorCode) : Bool :=
  retryableErrors.contains error.code

/-- `retryWithBackoff` casts any caught value with `error as AppError`; a
plain `Error` has `code === undefined`, which is never in the list. -/
def shouldRetryJSError (e : JSError) (retryableErrors : List ErrorCode) : Bool :=
  match e with
  | .app a => shouldRetryError a retryableErrors
  | .generic _ => false

/-- Observable trace of one `retryWithBackoff` run: the final result, how many
times the operation was invoked, and each `onRetry` observer call `(attempt, error)`. -/
structure RetryTrace (α : Type) where
  result : Except JSError α
  invocations : Nat
  observerCalls : List (Nat × JSError)

/-- The `for` loop body of `retryWithBackoff`.  `op attempt` is the outcome of
the attempt-th invocation of the operation; `fuel` counts the loop iterations
still allowed by the loop bound `opts.maxRetries || 3`; `lastError` models the
`lastError` local, thrown if the loop ever exits normally. -/
def retryLoop {α : Type} (op : Nat → Except JSError α) (retryableErrors : List ErrorCode)
    (maxRetries : Nat) : Nat → Nat → Option JSError → RetryTrace α
  | _, 0, lastError =>
    ⟨.error (lastError.getD (.generic "Retry failed with unknown error")), 0, []⟩
  | attempt, fuel + 1, _ =>
    match op attempt with
    | .ok v => ⟨.ok v, 1, []⟩
    | .error e =>
      if ¬ shouldRetryJSError e retryableErrors then ⟨.error e, 1, []⟩
      else if attempt = maxRetries then ⟨.error e, 1, []⟩
      else
        let rest := retryLoop op retryableErrors maxRetries (attempt + 1) fuel (some e)
        ⟨rest.result, rest.invocations + 1, (attempt, e) :: rest.observerCalls⟩

/-- `retryWithBackoff(operation, options)`: attempts run `1 .. (maxRetries || 3)`;
the last-attempt check compares against the raw `opts.maxRetries`. -/
def retryWithBackoff {α : Type} (op : Nat → Except JSError α) (opts : RetryOpts) : RetryTrace α :=
  retryLoop op opts.retryableErrors opts.maxRetries 1 (jsOrNat opts.maxRetries 3) none

/-- `retryApiCall(apiCall)` with no overriding options: the defaults plus the
explicit retryable set {NETWORK_ERROR, API_RATE_LIMIT, API_ERROR}. -/
def retryApiCall {α : Type} (op : Nat → Except JSError α) : RetryTrace α :=
  retryWithBackoff op
    { maxRetries := 3, retryableErrors := API_RETRY_STRATEGY_retryableErrors }

/-- The `AppError` built inside `retryImageAnalysis` when the analyze endpoint
reports failure: `recoverable` is computed by `shouldRetryError` on a partial
cast `{ code: result.error.code } as AppError` (only `code` is read) against
`analysisOptions.retryableErrors`, which under default options is
`API_RETRY_STRATEGY.retryableErrors`; `suggestions || []` treats a missing
array as empty. -/
def retryImageAnalysisError (code : ErrorCode) (message : String)
    (suggestions : Option (List String)) : AppError :=
  { code := code
    message := message
    userMessage := message
    suggestions := suggestions.getD []
    recoverable := shouldRetryError
      { code := code, message := "", userMessage := "", suggestions := [], recoverable := false }
      API_RETRY_STRATEGY_retryableErrors }

/-- The three circuit-breaker states. -/
inductive CBState
  | CLOSED
  | OPEN
  | HALF_OPEN
deriving DecidableEq

/-- Mutable fields of the `CircuitBreaker` class (initial values as in the
field initializers: `failures = 0`, `lastFailureTime = 0`, `state = CLOSED`). -/
structure CircuitBreaker where
  failures : Nat := 0
  lastFailureTime : Int := 0
  state : CBState := .CLOSED
deriving DecidableEq

/-- Constructor parameters of `CircuitBreaker` (defaults 5 and 60000 ms). -/
structure CBConfig where
  failureThreshold : Nat := 5
  recoveryTimeout : Int := 60000
deriving DecidableEq

/-- `onSuccess`: reset the failure count and close the circuit. -/
def CircuitBreaker.onSuccess (b : CircuitBreaker) : CircuitBreaker :=
  { b with failures := 0, state := .CLOSED }

/-- `onFailure` at time `now`: increment `failures`, record `lastFailureTime`,
and open the circuit when the threshold is reached. -/
def CircuitBreaker.onFailure (cfg : CBConfig) (b : CircuitBreaker) (now : Int) : CircuitBreaker :=
  let b' := { b with failures := b.failures + 1, lastFailureTime := now }
  if cfg.failureThreshold ≤ b'.failures then { b' with state := .OPEN } else b'

/-- Observable trace of one `execute` call: its result, the breaker state
afterwards, whether the wrapped operation was invoked, and — when it was —
the breaker state at the moment of invocation (exposing the transient
OPEN to HALF_OPEN transition). -/
structure ExecTrace (α : Type) where
  result : Except JSError α
  finalState : CircuitBreaker
  invoked : Bool
  stateAtInvocation : Option CircuitBreaker

/-- `CircuitBreaker.execute(operation)` at time `now`.  The wrapped
operation's outcome, were it invoked, is `opResult`; its value cannot affect
the breaker state, so `α` stays abstract.  The guard follows
`Date.now() - lastFailureTime > recoveryTimeout` literally (both `Date.now()`
reads within one call are modelled as the same instant `now`). -/
def CircuitBreaker.execute {α : Type} (cfg : CBConfig) (b : CircuitBreaker) (now : Int)
    (opResult : Except JSError α) : ExecTrace α :=
  let gate : Except JSError CircuitBreaker :=
    if b.state = .OPEN then
      if cfg.recoveryTimeout < now - b.lastFailureTime then
        .ok { b with state := .HALF_OPEN }
      else
        .error (.generic "Circuit breaker is OPEN")
    else .ok b
  match gate with
  | .error e => ⟨.error e, b, false, none⟩
  | .ok b' =>
    match opResult with
    | .ok v => ⟨.ok v, b'.onSuccess, true, some b'⟩
    | .error e => ⟨.error e, CircuitBreaker.onFailure cfg b' now, true, some b'⟩

/-- Folding a sequence of `execute` calls (each a time and an operation
outcome) over the breaker state. -/
def CircuitBreaker.run (cfg : CBConfig) (b : CircuitBreaker)
    (events : List (Int × Except JSError Unit)) : CircuitBreaker :=
  events.foldl (fun s ev => (CircuitBreaker.execute cfg s ev.1 ev.2).finalState) b

/-- Breaker states reachable from the initial state by `execute` calls. -/
inductive CircuitBreaker.Reachable (cfg : CBConfig) : CircuitBreaker → Prop
  | init : CircuitBreaker.Reachable cfg {}
  | step (s : CircuitBreaker) (now : Int) (r : Except JSError Unit) :
      CircuitBreaker.Reachable cfg s →
      CircuitBreaker.Reachable cfg (CircuitBreaker.execute cfg s now r).finalState

/-- The constructor arguments of the process-wide `apiCircuitBreaker`. -/
def apiCircuitBreakerConfig : CBConfig := { failureThreshold := 5, recoveryTimeout := 60000 }

/-- `resilientApiCall(operation)`: one `apiCircuitBreaker.execute` call whose
wrapped operation is the whole `retryApiCall` retry sequence; one failed
sequence therefore counts as a single breaker failure. -/
def resilientApiCall {α : Type} (b : CircuitBreaker) (now : Int)
    (op : Nat → Except JSError α) : ExecTrace α :=
  CircuitBreaker.execute apiCircuitBreakerConfig b now (retryApiCall op).result

/-- Folding a sequence of `resilientApiCall`s over the shared breaker state. -/
def runResilient (b : CircuitBreaker)
    (calls : List (Int × (Nat → Except JSError Unit))) : CircuitBreaker :=
  calls.foldl (fun s c => (resilientApiCall s c.1 c.2).finalState) b

/-- `ExtractedData.price` from the types module. -/
structure PriceField where
  value : ℚ
  currency : String
  confidence : ℚ
deriving DecidableEq

/-- `ExtractedData.weight`; the unit is kept as the runtime string. -/
structure WeightField where
  value : ℚ
  unit : String
  confidence : ℚ
deriving DecidableEq

/-- `ExtractedData.product`. -/
structure ProductField where
  name : String
  brand : String
  confidence : ℚ
deriving DecidableEq

/-- The `ExtractedData` aggregate. -/
structure ExtractedData where
  price : PriceField
  weight : WeightField
  product : ProductField
deriving DecidableEq

/-- The `minConfidence` threshold of the analyze endpoint. -/
def minConfidence : ℚ := 3 / 10

/-- The `errors` array built by the POST handler of the analyze endpoint
(`src/src/lib/secureImageProcessing.ts`): field names pushed for every
insufficient field (`!parsedData.product.name` is the empty string). -/
def apiValidationErrors (d : ExtractedData) : List String :=
  (if d.price.confidence < minConfidence ∨ d.price.value ≤ 0
    then ["price information"] else []) ++
  (if d.weight.confidence < minConfidence ∨ d.weight.value ≤ 0
    then ["weight/volume information"] else []) ++
  (if d.product.confidence < minConfidence ∨ d.product.name = ""
    then ["product name"] else [])

/-- The API-facing post-call validation: when `errors` is non-empty the
handler picks one code by priority price, then weight, then product. -/
def apiValidate (d : ExtractedData) : Option ErrorCode :=
  let errors := apiValidationErrors d
  if errors = [] then none
  else some
    (if errors.contains "price information" then .NO_PRICE_DETECTED
     else if errors.contains "weight/volume information" then .NO_WEIGHT_DETECTED
     else .NO_PRODUCT_DETECTED)

/-- The `validUnits` list of `validateExtractedData`. -/
def validUnits : List String := ["g", "kg", "ml", "l"]

/-- JavaScript `String.prototype.trim()`: strip leading and trailing
whitespace (written on the character list so that it evaluates). -/
def jsTrim (s : String) : String :=
  ⟨((s.data.dropWhile Char.isWhitespace).reverse.dropWhile Char.isWhitespace).reverse⟩

/-- The UI-facing `validateExtractedData` from `src/components/DataExtractor.tsx`
(`null` return, meaning valid, becomes `none`).  The JavaScript falsiness
checks `!data.price.currency`, `!data.weight.unit` and `!data.product.name`
test for the empty string. -/
def validateExtractedData (data : ExtractedData) : Option AppError :=
  if data.price.value ≤ 0 ∨ data.price.currency = "" then
    some (createAppError .NO_PRICE_DETECTED)
  else if data.weight.value ≤ 0 ∨ data.weight.unit = "" then
    some (createAppError .NO_WEIGHT_DETECTED)
  else if ¬ validUnits.contains data.weight.unit then
    some (createAppError .NO_WEIGHT_DETECTED
      (some "Invalid weight unit detected")
      (some ["Verifica que la unidad esté claramente visible",
             "Asegúrate de que sea una unidad estándar (g, kg, ml, l)"]))
  else if data.product.name = "" ∨ (jsTrim data.product.name).length = 0 then
    some (createAppError .NO_PRODUCT_DETECTED)
  else none

/-- `NormalizedWeight`; the canonical unit is kept as the runtime string
(the TypeScript type constrains it to the union `'kg' | 'l'`). -/
structure NormalizedWeight where
  value : ℚ
  unit : String
  originalValue : ℚ
  originalUnit : String
deriving DecidableEq

/-- `WeightNormalizer.isValidUnit`. -/
def WeightNormalizer.isValidUnit (unit : String) : Bool :=
  ["g", "kg", "ml", "l"].contains unit

/-- `WeightNormalizer.normalize(weight)`: validation then the unit `switch`
(thrown `Error`s become `Except.error` messages). -/
def WeightNormalizer.normalize (weight : WeightField) : Except String NormalizedWeight :=
  if ¬ WeightNormalizer.isValidUnit weight.unit then
    .error ("Unsupported unit: " ++ weight.unit)
  else if weight.value ≤ 0 then
    .error "Invalid weight value"
  else if weight.unit = "g" then
    .ok { value := weight.value / 1000, unit := "kg"
          originalValue := weight.value, originalUnit := weight.unit }
  else if weight.unit = "kg" then
    .ok { value := weight.value, unit := "kg"
          originalValue := weight.value, originalUnit := weight.unit }
  else if weight.unit = "ml" then
    .ok { value := weight.value / 1000, unit := "l"
          originalValue := weight.value, originalUnit := weight.unit }
  else if weight.unit = "l" then
    .ok { value := weight.value, unit := "l"
          originalValue := weight.value, originalUnit := weight.unit }
  else
    .error ("Unsupported unit: " ++ weight.unit)

/-- The nested `conversions` record of `WeightNormalizer.getConversionFactor`:
the outer lookup returns a row (itself a partial map) or nothing. -/
def conversionRow (fromUnit : String) : Option (String → Option ℚ) :=
  if fromUnit = "g" then
    some fun t => if t = "kg" then some (1 / 1000) else if t = "g" then some 1 else none
  else if fromUnit = "kg" then
    some fun t => if t = "kg" then some 1 else if t = "g" then some 1000 else none
  else if fromUnit = "ml" then
    some fun t => if t = "l" then some (1 / 1000) else if t = "ml" then some 1 else none
  else if fromUnit = "l" then
    some fun t => if t = "l" then some 1 else if t = "ml" then some 1000 else none
  else none

/-- `WeightNormalizer.getConversionFactor(fromUnit, toUnit)`: missing row or
missing entry throws (no stored factor is `0`, so the JavaScript falsiness
test coincides with a missing entry). -/
def WeightNormalizer.getConversionFactor (fromUnit toUnit : String) : Except String ℚ :=
  match conversionRow fromUnit with
  | none => .error ("Cannot convert from " ++ fromUnit ++ " to " ++ toUnit)
  | some row =>
    match row toUnit with
    | none => .error ("Cannot convert from " ++ fromUnit ++ " to " ++ toUnit)
    | some factor => .ok factor

/-- Spec-side conversion table, following the claim's words: factor 0.001 for
g→kg and ml→l, 1000 for kg→g and l→ml, 1 for the identity pairs of the four
units, and no entry for any other pair (such as the cross-domain g→l). -/
def specConversionFactor (f t : String) : Option ℚ :=
  if f = "g" ∧ t = "kg" then some (1 / 1000)
  else if f = "ml" ∧ t = "l" then some (1 / 1000)
  else if f = "kg" ∧ t = "g" then some 1000
  else if f = "l" ∧ t = "ml" then some 1000
  else if (f = "g" ∨ f = "kg" ∨ f = "ml" ∨ f = "l") ∧ t = f then some 1
  else none

/-- `UnitPriceResult`. -/
structure UnitPriceResult where
  pricePerUnit : ℚ
  unit : String
  currency : String
  originalPrice : ℚ
  originalWeight : NormalizedWeight
deriving DecidableEq

/-- JavaScript `Math.round`: nearest integer, ties toward positive infinity,
which on the rationals is the floor of `x + 1/2`. -/
def jsMathRound (x : ℚ) : Int := ⌊x + 1 / 2⌋

/-- `UnitPriceCalculator.calculate(price, normalizedWeight)`
(`src/unnamed/part_002`): validation, division, then
`Math.round(pricePerUnit * 100) / 100`. -/
def UnitPriceCalculator.calculate (price : PriceField) (normalizedWeight : NormalizedWeight) :
    Except String UnitPriceResult :=
  if price.value ≤ 0 then
    .error "Invalid price value"
  else if normalizedWeight.value ≤ 0 then
    .error "Invalid normalized weight value"
  else
    let pricePerUnit := price.value / normalizedWeight.value
    let roundedPricePerUnit : ℚ := (jsMathRound (pricePerUnit * 100) : ℚ) / 100
    .ok { pricePerUnit := roundedPricePerUnit
          unit := normalizedWeight.unit
          currency := price.currency
          originalPrice := price.value
          originalWeight := normalizedWeight }

/-- Rounding half-up to two decimal places, as the spec describes the
computation: the decimal representation is scaled by 100, rounded half-up to
an integer, and scaled back. -/
def roundHalfUp2 (x : ℚ) : ℚ := ((⌊100 * x + 1 / 2⌋ : Int) : ℚ) / 100

/-- C7: for positive price and positive normalized weight, `calculate` returns
`pricePerUnit` equal to price/weight rounded half-up to two decimal places,
and carries the weight's unit, the price's currency, the original price and
the original weight; in particular price 3.33 over weight 1.5 gives exactly
2.22. -/
theorem C7_calculate_rounds_half_up :
    (∀ (price : PriceField) (w : NormalizedWeight), 0 < price.value → 0 < w.value →
      UnitPriceCalculator.calculate price w =
        .ok { pricePerUnit := roundHalfUp2 (price.value / w.value)
              unit := w.unit, currency := price.currency
              originalPrice := price.value, originalWeight := w }) ∧
    UnitPriceCalculator.calculate
        { value := 333 / 100, currency := "EUR", confidence := 1 }
        { value := 3 / 2, unit := "kg", originalValue := 3 / 2, originalUnit := "kg" } =
      .ok { pricePerUnit := 222 / 100
            unit := "kg", currency := "EUR", originalPrice := 333 / 100
            originalWeight :=
              { value := 3 / 2, unit := "kg", originalValue := 3 / 2, originalUnit := "kg" } } := by
  have key : ∀ (price : PriceField) (w : NormalizedWeight), 0 < price.value → 0 < w.value →
      UnitPriceCalculator.calculate price w =
        .ok { pricePerUnit := roundHalfUp2 (price.value / w.value)
              unit := w.unit, currency := price.currency
              originalPrice := price.value, originalWeight := w } := by
    intro price w hp hw
    have h1 : ¬ price.value ≤ 0 := not_le.mpr hp
    have h2 : ¬ w.value ≤ 0 := not_le.mpr hw
    simp only [UnitPriceCalculator.calculate, if_neg h1, if_neg h2,
      roundHalfUp2, jsMathRound, Except.ok.injEq]
    rw [mul_comm]
  refine ⟨key, ?_⟩
  rw [key _ _ (by norm_num) (by norm_num)]
  simp only [roundHalfUp2, Except.ok.injEq, UnitPriceResult.mk.injEq]
  norm_num

/-- C7 witness: the general part of the theorem applied at the concrete
price 2.50 EUR over 0.5 kg, giving 5.00 per kg. -/
theorem C7_calculate_witness :
    UnitPriceCalculator.calculate
        { value := 5 / 2, currency := "EUR", confidence := 1 }
        { value := 1 / 2, unit := "kg", originalValue := 500, originalUnit := "g" } =
      .ok { pricePerUnit := roundHalfUp2 ((5 : ℚ) / 2 / (1 / 2))
            unit := "kg", currency := "EUR", originalPrice := 5 / 2
            originalWeight :=
              { value := 1 / 2, unit := "kg", originalValue := 500, originalUnit := "g" } } :=
  C7_calculate_rounds_half_up.1 _ _ (by norm_num) (by norm_num)

/-- C8: for a weight field with positive value, `normalize` keeps kg and l
values unchanged (idempotence), divides g and ml values by 1000 (to kg and l
respectively), and in every successful case records the original value and
unit while producing a canonical unit in {kg, l}. -/
theorem C8_normalize_units (w : WeightField) (hw : 0 < w.value) :
    (w.unit = "kg" → WeightNormalizer.normalize w =
      .ok { value := w.value, unit := "kg", originalValue := w.value, originalUnit := w.unit }) ∧
    (w.unit = "l" → WeightNormalizer.normalize w =
      .ok { value := w.value, unit := "l", originalValue := w.value, originalUnit := w.unit }) ∧
    (w.unit = "g" → WeightNormalizer.normalize w =
      .ok { value := w.value / 1000, unit := "kg"
            originalValue := w.value, originalUnit := w.unit }) ∧
    (w.unit = "ml" → WeightNormalizer.normalize w =
      .ok { value := w.value / 1000, unit := "l"
            originalValue := w.value, originalUnit := w.unit }) ∧
    (∀ r, WeightNormalizer.normalize w = .ok r →
      r.originalValue = w.value ∧ r.originalUnit = w.unit ∧ (r.unit = "kg" ∨ r.unit = "l")) := by
  have hnle : ¬ w.value ≤ 0 := not_le.mpr hw
  refine ⟨?_, ?_, ?_, ?_, ?_⟩
  · intro hu
    simp [WeightNormalizer.normalize, WeightNormalizer.isValidUnit, hu, hnle]
  · intro hu
    simp [WeightNormalizer.normalize, WeightNormalizer.isValidUnit, hu, hnle]
  · intro hu
    simp [WeightNormalizer.normalize, WeightNormalizer.isValidUnit, hu, hnle]
  · intro hu
    simp [WeightNormalizer.normalize, WeightNormalizer.isValidUnit, hu, hnle]
  · intro r hr
    unfold WeightNormalizer.normalize at hr
    split_ifs at hr <;> simp_all
    all_goals subst hr
    all_goals simp_all

/-- C8 witness: the theorem applied at the concrete weight field 500 g, which
normalizes to 0.5 kg with the original value and unit recorded. -/
theorem C8_normalize_witness :
    WeightNormalizer.normalize { value := 500, unit := "g", confidence := 9 / 10 } =
      .ok { value := 500 / 1000, unit := "kg", originalValue := 500, originalUnit := "g" } :=
  (C8_normalize_units { value := 500, unit := "g", confidence := 9 / 10 }
    (by norm_num)).2.2.1 rfl

/-- C9: `getConversionFactor` succeeds exactly on the within-domain pairs of
its table — 0.001 for g→kg and ml→l, 1000 for kg→g and l→ml, 1 for identity
pairs — and fails (throws) for every other pair, including cross-domain ones
such as g→l. -/
theorem C9_conversionFactor_table (f t : String) :
    (WeightNormalizer.getConversionFactor f t).toOption = specConversionFactor f t := by
  by_cases hg : f = "g" <;> by_cases hkg : f = "kg" <;> by_cases hml : f = "ml" <;>
    by_cases hl : f = "l" <;>
    by_cases h1 : t = "kg" <;> by_cases h2 : t = "g" <;> by_cases h3 : t = "l" <;>
    by_cases h4 : t = "ml" <;>
    simp_all [WeightNormalizer.getConversionFactor, conversionRow, specConversionFactor,
      Except.toOption]

/-- A concrete extraction result: valid numeric price and currency, valid
weight and product fields, but price confidence 0.2, below the 0.3 threshold. -/
def lowConfidencePriceData : ExtractedData :=
  { price := { value := 5 / 2, currency := "EUR", confidence := 1 / 5 }
    weight := { value := 500, unit := "g", confidence := 9 / 10 }
    product := { name := "Milk", brand := "", confidence := 9 / 10 } }

/-- C2 counterexample: an extraction result with price confidence 0.2 < 0.3
that the UI-facing `validateExtractedData` nevertheless accepts (returns no
error), so the claim's "on every validation path" fails on that path. -/
theorem C2_counterexample :
    lowConfidencePriceData.price.confidence < minConfidence ∧
    validateExtractedData lowConfidencePriceData = none ∧
    ¬ validateExtractedData lowConfidencePriceData =
        some (createAppError .NO_PRICE_DETECTED) := by
  have hval : validateExtractedData lowConfidencePriceData = none := by
    norm_num [validateExtractedData, lowConfidencePriceData, validUnits]
    decide
  exact ⟨by norm_num [lowConfidencePriceData, minConfidence], hval, by simp [hval]⟩

/-- C2 (amended): an extraction result whose price confidence is strictly
below 0.3 fails the API-facing post-call validation with NO_PRICE_DETECTED
regardless of the numeric price value (the UI-facing `validateExtractedData`
does not inspect confidence at all). -/
theorem C2_amended (d : ExtractedData) (h : d.price.confidence < minConfidence) :
    apiValidate d = some ErrorCode.NO_PRICE_DETECTED := by
  have hp : d.price.confidence < minConfidence ∨ d.price.value ≤ 0 := Or.inl h
  simp [apiValidate, apiValidationErrors, hp]

/-- C2 witness: the amended theorem applied to the concrete low-confidence
extraction result. -/
theorem C2_witness :
    apiValidate lowConfidencePriceData = some ErrorCode.NO_PRICE_DETECTED :=
  C2_amended lowConfidencePriceData (by norm_num [lowConfidencePriceData, minConfidence])

/-- C3 counterexample: the AppError constructed on the image-analysis retry
path for code API_ERROR has `recoverable = true`, although API_ERROR's
category is CRITICAL_ERROR — refuting "recoverable = false iff the code's
category is CRITICAL_ERROR" for errors surfaced by that path. -/
theorem C3_counterexample :
    ERROR_CATEGORIES
        (retryImageAnalysisError .API_ERROR "API authentication failed" none).code =
      ErrorCategory.CRITICAL_ERROR ∧
    (retryImageAnalysisError .API_ERROR "API authentication failed" none).recoverable = true ∧
    ¬ (retryImageAnalysisError .API_ERROR "API authentication failed" none).recoverable
        = false := by
  refine ⟨rfl, by decide, by decide⟩

/-- C3 (amended): `createAppError` derives `recoverable` solely from the
code's category — false exactly for API_ERROR, whatever the caller-supplied
message and suggestions are — but the AppError built on the image-analysis
retry path instead sets `recoverable` to the code's retryability, which is
true exactly for NETWORK_ERROR, API_RATE_LIMIT and API_ERROR. -/
theorem C3_amended :
    (∀ (code : ErrorCode) (msg : Option String) (sugg : Option (List String)),
      ((createAppError code msg sugg).recoverable = false ↔ code = .API_ERROR)) ∧
    (∀ (code : ErrorCode) (msg : String) (sugg : Option (List String)),
      ((retryImageAnalysisError code msg sugg).recoverable = true ↔
        (code = .NETWORK_ERROR ∨ code = .API_RATE_LIMIT ∨ code = .API_ERROR))) := by
  constructor
  · intro code msg sugg
    cases code <;> simp [createAppError, ERROR_CATEGORIES]
  · intro code msg sugg
    cases code <;>
      simp [retryImageAnalysisError, shouldRetryError, API_RETRY_STRATEGY_retryableErrors]

/-- The default AppError for code API_ERROR. -/
def apiErrorSample : AppError := createAppError .API_ERROR

/-- An operation that fails with the API_ERROR AppError on every invocation. -/
def alwaysApiError : Nat → Except JSError Unit := fun _ => .error (.app apiErrorSample)

/-- C1 counterexample: under `retryApiCall`'s configuration an operation
failing with API_ERROR is invoked 3 times, not once — API_ERROR is in the
retryable set, so it does not surface immediately. -/
theorem C1_counterexample :
    (retryApiCall alwaysApiError).invocations = 3 ∧
    ¬ (retryApiCall alwaysApiError).invocations = 1 ∧
    (retryApiCall alwaysApiError).result = .error (.app apiErrorSample) := by
  refine ⟨by decide, by decide, rfl⟩

/-- C1 (amended): API_ERROR is in `retryApiCall`'s retryable set
{NETWORK_ERROR, API_RATE_LIMIT, API_ERROR}: an operation whose every attempt
fails with an API_ERROR-coded AppError is invoked exactly maxRetries = 3
times, and the last attempt's error propagates. -/
theorem C1_amended {α : Type} (op : Nat → Except JSError α) (e : Nat → AppError)
    (hop : ∀ n, op n = .error (.app (e n)))
    (hcode : ∀ n, (e n).code = ErrorCode.API_ERROR) :
    (retryApiCall op).invocations = 3 ∧
    (retryApiCall op).result = .error (.app (e 3)) := by
  have h1 := hop 1; have h2 := hop 2; have h3 := hop 3
  have hc1 := hcode 1; have hc2 := hcode 2; have hc3 := hcode 3
  simp [retryApiCall, retryWithBackoff, retryLoop, jsOrNat, h1, h2, h3,
    shouldRetryJSError, shouldRetryError, API_RETRY_STRATEGY_retryableErrors,
    hc1, hc2, hc3]

/-- C1 witness: the amended theorem applied to the concrete always-failing
API_ERROR operation. -/
theorem C1_witness :
    (retryApiCall alwaysApiError).invocations = 3 ∧
    (retryApiCall alwaysApiError).result = .error (.app apiErrorSample) :=
  C1_amended alwaysApiError (fun _ => apiErrorSample) (fun _ => rfl) (fun _ => rfl)

/-- Observer accounting for the retry loop: starting at `attempt` with
matching fuel, the observer fires exactly once per non-terminal retried
failure (so one fewer time than the operation is invoked), and every observer
call records a retried failing attempt strictly before the last allowed one. -/
theorem retryLoop_observer {α : Type} (op : Nat → Except JSError α)
    (retryable : List ErrorCode) (m : Nat) :
    ∀ (fuel attempt : Nat) (last : Option JSError), 1 ≤ fuel → attempt + fuel = m + 1 →
      ((retryLoop op retryable m attempt fuel last).observerCalls.length + 1 =
        (retryLoop op retryable m attempt fuel last).invocations) ∧
      (∀ p ∈ (retryLoop op retryable m attempt fuel last).observerCalls,
        attempt ≤ p.1 ∧ p.1 < m ∧ op p.1 = .error p.2 ∧
          shouldRetryJSError p.2 retryable = true) := by
  intro fuel
  induction fuel with
  | zero => intro attempt last h _; exact absurd h (by decide)
  | succ k ih =>
    intro attempt last _ hsum
    cases hop : op attempt with
    | ok v => simp [retryLoop, hop]
    | error e =>
      by_cases hr : shouldRetryJSError e retryable
      · by_cases ha : attempt = m
        · subst ha
          simp [retryLoop, hop, hr]
        · have hk : 1 ≤ k := by omega
          have hmem := ih (attempt + 1) (some e) hk (by omega)
          have hunfold : retryLoop op retryable m attempt (k + 1) last =
              ⟨(retryLoop op retryable m (attempt + 1) k (some e)).result,
               (retryLoop op retryable m (attempt + 1) k (some e)).invocations + 1,
               (attempt, e) :: (retryLoop op retryable m (attempt + 1) k (some e)).observerCalls⟩ := by
            simp [retryLoop, hop, hr, ha]
          rw [hunfold]
          constructor
          · simp [hmem.1]
          · intro p hp
            rcases List.mem_cons.mp hp with hph | hpt
            · subst hph
              exact ⟨le_refl _, by omega, hop, hr⟩
            · obtain ⟨h1, h2, h3, h4⟩ := hmem.2 p hpt
              exact ⟨by omega, h2, h3, h4⟩
      · simp [retryLoop, hop, hr]

/-- C4: `retryWithBackoff` with maxRetries 3 and retryable set {NETWORK_ERROR}:
an operation failing twice with NETWORK_ERROR then succeeding returns success
after exactly 3 invocations with the observer fired at attempts 1 and 2; an
operation failing once with a non-retryable code is invoked exactly once and
that same error propagates with no observer call; and in general the observer
fires exactly once per non-terminal retried failure — one fewer time than the
operation is invoked, never on success and never on the final attempt. -/
theorem C4_retry_scenarios :
    (∀ (op : Nat → Except JSError Unit) (e₁ e₂ : AppError),
      op 1 = .error (.app e₁) → e₁.code = ErrorCode.NETWORK_ERROR →
      op 2 = .error (.app e₂) → e₂.code = ErrorCode.NETWORK_ERROR →
      op 3 = .ok () →
      retryWithBackoff op { maxRetries := 3, retryableErrors := [.NETWORK_ERROR] } =
        ⟨.ok (), 3, [(1, .app e₁), (2, .app e₂)]⟩) ∧
    (∀ (op : Nat → Except JSError Unit) (e : AppError),
      op 1 = .error (.app e) → e.code = ErrorCode.INVALID_IMAGE_FORMAT →
      retryWithBackoff op { maxRetries := 3, retryableErrors := [.NETWORK_ERROR] } =
        ⟨.error (.app e), 1, []⟩) ∧
    (∀ (op : Nat → Except JSError Unit) (opts : RetryOpts), 1 ≤ opts.maxRetries →
      ((retryWithBackoff op opts).observerCalls.length + 1 =
        (retryWithBackoff op opts).invocations) ∧
      (∀ p ∈ (retryWithBackoff op opts).observerCalls,
        1 ≤ p.1 ∧ p.1 < opts.maxRetries ∧ op p.1 = .error p.2 ∧
          shouldRetryJSError p.2 opts.retryableErrors = true)) := by
  refine ⟨?_, ?_, ?_⟩
  · intro op e₁ e₂ h1 hc1 h2 hc2 h3
    simp [retryWithBackoff, retryLoop, jsOrNat, h1, h2, h3, shouldRetryJSError,
      shouldRetryError, hc1, hc2]
  · intro op e h1 hc1
    simp [retryWithBackoff, retryLoop, jsOrNat, h1, shouldRetryJSError,
      shouldRetryError, hc1]
  · intro op opts hmax
    have hfuel : jsOrNat opts.maxRetries 3 = opts.maxRetries := by
      unfold jsOrNat
      rw [if_neg (by omega)]
    exact retryLoop_observer op opts.retryableErrors opts.maxRetries
      (jsOrNat opts.maxRetries 3) 1 none (by rw [hfuel]; omega) (by rw [hfuel]; omega)

/-- The default AppError for code NETWORK_ERROR. -/
def netErrorSample : AppError := createAppError .NETWORK_ERROR

/-- A concrete operation failing with NETWORK_ERROR on attempts 1 and 2 and
succeeding from attempt 3 on. -/
def c4SampleOp : Nat → Except JSError Unit := fun n =>
  if 3 ≤ n then .ok () else .error (.app netErrorSample)

/-- C4 witness: both concrete scenarios of the theorem instantiated — the
twice-failing operation succeeds after 3 invocations with two observer calls,
and the observer accounting holds under the default options. -/
theorem C4_witness :
    retryWithBackoff c4SampleOp { maxRetries := 3, retryableErrors := [.NETWORK_ERROR] } =
      ⟨.ok (), 3, [(1, .app netErrorSample), (2, .app netErrorSample)]⟩ ∧
    ((retryWithBackoff c4SampleOp DEFAULT_RETRY_OPTIONS).observerCalls.length + 1 =
      (retryWithBackoff c4SampleOp DEFAULT_RETRY_OPTIONS).invocations) :=
  ⟨C4_retry_scenarios.1 c4SampleOp netErrorSample netErrorSample rfl rfl rfl rfl rfl,
    (C4_retry_scenarios.2.2 c4SampleOp DEFAULT_RETRY_OPTIONS (by decide)).1⟩

/-- `onFailure` always increments the failure count by exactly one. -/
theorem onFailure_failures (cfg : CBConfig) (b : CircuitBreaker) (now : Int) :
    (CircuitBreaker.onFailure cfg b now).failures = b.failures + 1 := by
  unfold CircuitBreaker.onFailure
  dsimp only
  split_ifs <;> rfl

/-- `onFailure` opens the circuit once the threshold is reached. -/
theorem onFailure_state_open (cfg : CBConfig) (b : CircuitBreaker) (now : Int)
    (h : cfg.failureThreshold ≤ b.failures + 1) :
    (CircuitBreaker.onFailure cfg b now).state = .OPEN := by
  unfold CircuitBreaker.onFailure
  dsimp only
  rw [if_pos h]

/-- Below the threshold, `onFailure` leaves the state unchanged. -/
theorem onFailure_state_kept (cfg : CBConfig) (b : CircuitBreaker) (now : Int)
    (h : ¬ cfg.failureThreshold ≤ b.failures + 1) :
    (CircuitBreaker.onFailure cfg b now).state = b.state := by
  unfold CircuitBreaker.onFailure
  dsimp only
  rw [if_neg h]

/-- `execute` on a non-OPEN breaker invokes the operation; a failure goes
through `onFailure` and is re-thrown unchanged. -/
theorem execute_not_open_error {α : Type} (cfg : CBConfig) (b : CircuitBreaker) (now : Int)
    (e : JSError) (hb : ¬ b.state = .OPEN) :
    CircuitBreaker.execute cfg b now (Except.error e : Except JSError α) =
      ⟨.error e, CircuitBreaker.onFailure cfg b now, true, some b⟩ := by
  simp [CircuitBreaker.execute, hb]

/-- `execute` on a non-OPEN breaker invokes the operation; a success goes
through `onSuccess`. -/
theorem execute_not_open_ok {α : Type} (cfg : CBConfig) (b : CircuitBreaker) (now : Int)
    (v : α) (hb : ¬ b.state = .OPEN) :
    CircuitBreaker.execute cfg b now (Except.ok v : Except JSError α) =
      ⟨.ok v, b.onSuccess, true, some b⟩ := by
  simp [CircuitBreaker.execute, hb]

/-- While OPEN and inside the recovery window, `execute` rejects without
invoking the operation and without touching the state. -/
theorem execute_open_waiting {α : Type} (cfg : CBConfig) (b : CircuitBreaker) (now : Int)
    (r : Except JSError α) (hb : b.state = .OPEN)
    (ht : ¬ cfg.recoveryTimeout < now - b.lastFailureTime) :
    CircuitBreaker.execute cfg b now r =
      ⟨.error (.generic "Circuit breaker is OPEN"), b, false, none⟩ := by
  simp [CircuitBreaker.execute, hb, ht]

/-- OPEN with the recovery window elapsed: the probe runs from the transient
HALF_OPEN state; its failure goes through `onFailure`. -/
theorem execute_open_elapsed_error {α : Type} (cfg : CBConfig) (b : CircuitBreaker) (now : Int)
    (e : JSError) (hb : b.state = .OPEN)
    (ht : cfg.recoveryTimeout < now - b.lastFailureTime) :
    CircuitBreaker.execute cfg b now (Except.error e : Except JSError α) =
      ⟨.error e, CircuitBreaker.onFailure cfg { b with state := .HALF_OPEN } now, true,
        some { b with state := .HALF_OPEN }⟩ := by
  simp [CircuitBreaker.execute, hb, ht]

/-- OPEN with the recovery window elapsed: a successful probe closes the
circuit via `onSuccess`. -/
theorem execute_open_elapsed_ok {α : Type} (cfg : CBConfig) (b : CircuitBreaker) (now : Int)
    (v : α) (hb : b.state = .OPEN)
    (ht : cfg.recoveryTimeout < now - b.lastFailureTime) :
    CircuitBreaker.execute cfg b now (Except.ok v : Except JSError α) =
      ⟨.ok v, CircuitBreaker.onSuccess { b with state := .HALF_OPEN }, true,
        some { b with state := .HALF_OPEN }⟩ := by
  simp [CircuitBreaker.execute, hb, ht]

/-- A run of only-failing calls from a CLOSED breaker whose failure count is
exactly the threshold away opens the circuit. -/
theorem run_failures_opens (cfg : CBConfig) :
    ∀ (events : List (Int × Except JSError Unit)) (b : CircuitBreaker),
      b.state = .CLOSED →
      (∀ ev ∈ events, ∃ e, ev.2 = Except.error e) →
      b.failures + events.length = cfg.failureThreshold →
      events ≠ [] →
      (CircuitBreaker.run cfg b events).state = .OPEN := by
  intro events
  induction events with
  | nil => intro b _ _ _ hne; exact absurd rfl hne
  | cons ev rest ih =>
    intro b hb hall hlen _
    obtain ⟨e, he⟩ := hall ev (List.mem_cons_self _ _)
    have hnotopen : ¬ b.state = .OPEN := by simp [hb]
    have hfin : (CircuitBreaker.execute cfg b ev.1 ev.2).finalState =
        CircuitBreaker.onFailure cfg b ev.1 := by
      rw [he, execute_not_open_error cfg b ev.1 e hnotopen]
    have hstep : CircuitBreaker.run cfg b (ev :: rest) =
        CircuitBreaker.run cfg (CircuitBreaker.onFailure cfg b ev.1) rest := by
      simp only [CircuitBreaker.run, List.foldl_cons]
      rw [hfin]
    rw [hstep]
    rcases rest with _ | ⟨ev2, rest2⟩
    · simp only [List.length_cons, List.length_nil] at hlen
      have hopen : (CircuitBreaker.onFailure cfg b ev.1).state = .OPEN :=
        onFailure_state_open cfg b ev.1 (by omega)
      simpa [CircuitBreaker.run] using hopen
    · simp only [List.length_cons] at hlen
      have hlt : ¬ cfg.failureThreshold ≤ b.failures + 1 := by omega
      refine ih (CircuitBreaker.onFailure cfg b ev.1) ?_ ?_ ?_ (by simp)
      · rw [onFailure_state_kept cfg b ev.1 hlt, hb]
      · intro x hx
        exact hall x (List.mem_cons_of_mem _ hx)
      · rw [onFailure_failures]
        simp only [List.length_cons]
        omega

/-- In every breaker state reachable by `execute` calls, an OPEN or HALF_OPEN
state carries at least `failureThreshold` failures (the count is only reset
on success). -/
theorem reachable_threshold (cfg : CBConfig) (s : CircuitBreaker)
    (h : CircuitBreaker.Reachable cfg s) :
    (s.state = .OPEN ∨ s.state = .HALF_OPEN) → cfg.failureThreshold ≤ s.failures := by
  induction h with
  | init =>
    intro hs
    rcases hs with hs | hs <;> exact absurd hs (by decide)
  | step s now r hs ih =>
    by_cases hopen : s.state = .OPEN
    · by_cases htime : cfg.recoveryTimeout < now - s.lastFailureTime
      · cases r with
        | ok v =>
          rw [execute_open_elapsed_ok cfg s now v hopen htime]
          intro hfin
          simp [CircuitBreaker.onSuccess] at hfin
        | error e =>
          rw [execute_open_elapsed_error cfg s now e hopen htime]
          intro _
          rw [onFailure_failures]
          have hthr := ih (Or.inl hopen)
          simp only []
          omega
      · rw [execute_open_waiting cfg s now r hopen htime]
        exact ih
    · cases r with
      | ok v =>
        rw [execute_not_open_ok cfg s now v hopen]
        intro hfin
        simp [CircuitBreaker.onSuccess] at hfin
      | error e =>
        rw [execute_not_open_error cfg s now e hopen]
        intro hfin
        rw [onFailure_failures]
        by_cases hthr : cfg.failureThreshold ≤ s.failures + 1
        · omega
        · rw [onFailure_state_kept cfg s now hthr] at hfin
          have := ih hfin
          omega

/-- C5: after `failureThreshold` consecutive failures from the initial state
the breaker is OPEN; while OPEN with elapsed time since the last failure not
exceeding `recoveryTimeout`, every `execute` fails with the circuit-open
error without invoking the operation or changing state; once the timeout has
elapsed, the next `execute` transitions to HALF_OPEN and does invoke the
operation. -/
theorem C5_circuit_breaker (cfg : CBConfig) :
    (∀ (events : List (Int × Except JSError Unit)),
      1 ≤ cfg.failureThreshold →
      events.length = cfg.failureThreshold →
      (∀ ev ∈ events, ∃ e, ev.2 = Except.error e) →
      (CircuitBreaker.run cfg {} events).state = .OPEN) ∧
    (∀ (b : CircuitBreaker) (now : Int) (r : Except JSError Unit),
      b.state = .OPEN → now - b.lastFailureTime ≤ cfg.recoveryTimeout →
      CircuitBreaker.execute cfg b now r =
        ⟨.error (.generic "Circuit breaker is OPEN"), b, false, none⟩) ∧
    (∀ (b : CircuitBreaker) (now : Int) (r : Except JSError Unit),
      b.state = .OPEN → cfg.recoveryTimeout < now - b.lastFailureTime →
      (CircuitBreaker.execute cfg b now r).invoked = true ∧
      (CircuitBreaker.execute cfg b now r).stateAtInvocation =
        some { b with state := .HALF_OPEN }) := by
  refine ⟨?_, ?_, ?_⟩
  · intro events h1 hlen hall
    refine run_failures_opens cfg events {} rfl hall (by simpa using hlen) ?_
    intro hemp
    rw [hemp] at hlen
    simp at hlen
    omega
  · intro b now r hb ht
    exact execute_open_waiting cfg b now r hb (not_lt.mpr ht)
  · intro b now r hb ht
    cases r with
    | ok v => rw [execute_open_elapsed_ok cfg b now v hb ht]; exact ⟨rfl, rfl⟩
    | error e => rw [execute_open_elapsed_error cfg b now e hb ht]; exact ⟨rfl, rfl⟩

/-- A small breaker configuration for concrete runs: threshold 2, 1000 ms. -/
def cbSampleConfig : CBConfig := { failureThreshold := 2, recoveryTimeout := 1000 }

/-- Two consecutive failing calls at times 0 and 1. -/
def cbFailEvents : List (Int × Except JSError Unit) :=
  [(0, .error (.generic "fail")), (1, .error (.generic "fail"))]

/-- A breaker that is OPEN with 2 failures, last failure at time 1. -/
def cbOpenSample : CircuitBreaker :=
  { failures := 2, lastFailureTime := 1, state := .OPEN }

/-- C5 witness: with threshold 2, two failures open the breaker; at time 500
(within the window) the call is rejected with the circuit-open error without
invocation; at time 5000 (window elapsed) the operation is invoked from the
transient HALF_OPEN state. -/
theorem C5_witness :
    (CircuitBreaker.run cbSampleConfig {} cbFailEvents).state = .OPEN ∧
    CircuitBreaker.execute cbSampleConfig cbOpenSample 500
        (Except.ok () : Except JSError Unit) =
      ⟨.error (.generic "Circuit breaker is OPEN"), cbOpenSample, false, none⟩ ∧
    (CircuitBreaker.execute cbSampleConfig cbOpenSample 5000
        (Except.ok () : Except JSError Unit)).invoked = true :=
  ⟨(C5_circuit_breaker cbSampleConfig).1 cbFailEvents (by decide) (by decide)
      (by
        intro ev hev
        rcases List.mem_cons.mp hev with h | hh
        · exact ⟨.generic "fail", by rw [h]⟩
        · rcases List.mem_cons.mp hh with h | hh
          · exact ⟨.generic "fail", by rw [h]⟩
          · exact absurd hh (List.not_mem_nil _)),
   (C5_circuit_breaker cbSampleConfig).2.1 cbOpenSample 500 _ rfl (by decide),
   ((C5_circuit_breaker cbSampleConfig).2.2 cbOpenSample 5000 _ rfl (by decide)).1⟩

/-- C6: in every reachable breaker state, OPEN or HALF_OPEN implies the
failure count has reached the threshold, and a failed probe from an OPEN
state (which runs in the transient HALF_OPEN state) re-opens the circuit
immediately after that single failure. -/
theorem C6_halfopen_probe (cfg : CBConfig) (s : CircuitBreaker)
    (hs : CircuitBreaker.Reachable cfg s) :
    ((s.state = .OPEN ∨ s.state = .HALF_OPEN) → cfg.failureThreshold ≤ s.failures) ∧
    (∀ (now : Int) (e : JSError),
      s.state = .OPEN →
      (CircuitBreaker.execute cfg s now (Except.error e : Except JSError Unit)).invoked = true →
      (CircuitBreaker.execute cfg s now
          (Except.error e : Except JSError Unit)).finalState.state = .OPEN) := by
  refine ⟨reachable_threshold cfg s hs, ?_⟩
  intro now e hopen hinv
  by_cases htime : cfg.recoveryTimeout < now - s.lastFailureTime
  · have hthr : cfg.failureThreshold ≤ s.failures :=
      reachable_threshold cfg s hs (Or.inl hopen)
    rw [execute_open_elapsed_error cfg s now e hopen htime]
    refine onFailure_state_open cfg _ now ?_
    simp only []
    omega
  · rw [execute_open_waiting cfg s now _ hopen htime] at hinv
    simp at hinv

/-- A breaker configuration with threshold 1. -/
def cbOneConfig : CBConfig := { failureThreshold := 1, recoveryTimeout := 1000 }

/-- The state reached from the initial breaker by one failing call at time 0
(OPEN with 1 failure under `cbOneConfig`). -/
def cbOneOpenState : CircuitBreaker :=
  (CircuitBreaker.execute cbOneConfig {} 0
    (Except.error (.generic "fail") : Except JSError Unit)).finalState

/-- C6 witness: the theorem applied to the reachable OPEN state after one
failure under threshold 1 — its failure count meets the threshold and a
failed probe at time 5000 leaves the circuit OPEN. -/
theorem C6_witness :
    cbOneConfig.failureThreshold ≤ cbOneOpenState.failures ∧
    (CircuitBreaker.execute cbOneConfig cbOneOpenState 5000
        (Except.error (.generic "fail") : Except JSError Unit)).finalState.state = .OPEN :=
  ⟨(C6_halfopen_probe cbOneConfig cbOneOpenState
      (CircuitBreaker.Reachable.step {} 0 (Except.error (.generic "fail"))
        CircuitBreaker.Reachable.init)).1 (Or.inl rfl),
   (C6_halfopen_probe cbOneConfig cbOneOpenState
      (CircuitBreaker.Reachable.step {} 0 (Except.error (.generic "fail"))
        CircuitBreaker.Reachable.init)).2 5000 (.generic "fail") rfl rfl⟩

/-- C10: whenever `execute` invokes its operation and the operation throws —
whatever the error's code, category or retryability — the failure count
increments by exactly one and the same error is re-thrown; consequently, for
the process-wide `apiCircuitBreaker` behind `resilientApiCall`,
`failureThreshold` (5) consecutive failing call sequences of any kind open
the circuit for all subsequent callers. -/
theorem C10_any_error_counts :
    (∀ (cfg : CBConfig) (b : CircuitBreaker) (now : Int) (e : JSError),
      (CircuitBreaker.execute cfg b now (Except.error e : Except JSError Unit)).invoked = true →
      (CircuitBreaker.execute cfg b now (Except.error e : Except JSError Unit)).result =
          .error e ∧
      (CircuitBreaker.execute cfg b now
          (Except.error e : Except JSError Unit)).finalState.failures = b.failures + 1) ∧
    (∀ (calls : List (Int × (Nat → Except JSError Unit))),
      calls.length = apiCircuitBreakerConfig.failureThreshold →
      (∀ c ∈ calls, ∃ e, (retryApiCall c.2).result = Except.error e) →
      (runResilient {} calls).state = .OPEN) := by
  constructor
  · intro cfg b now e hinv
    by_cases hopen : b.state = .OPEN
    · by_cases htime : cfg.recoveryTimeout < now - b.lastFailureTime
      · rw [execute_open_elapsed_error cfg b now e hopen htime]
        refine ⟨rfl, ?_⟩
        rw [onFailure_failures]
      · rw [execute_open_waiting cfg b now _ hopen htime] at hinv
        simp at hinv
    · rw [execute_not_open_error cfg b now e hopen]
      exact ⟨rfl, onFailure_failures cfg b now⟩
  · intro calls hlen hall
    have hmap : runResilient {} calls =
        CircuitBreaker.run apiCircuitBreakerConfig {}
          (calls.map fun c => (c.1, (retryApiCall c.2).result)) := by
      unfold runResilient CircuitBreaker.run resilientApiCall
      rw [List.foldl_map]
    rw [hmap]
    refine run_failures_opens apiCircuitBreakerConfig _ {} rfl ?_ ?_ ?_
    · intro ev hev
      obtain ⟨c, hc, rfl⟩ := List.mem_map.mp hev
      exact hall c hc
    · simpa using hlen
    · intro hemp
      rw [List.map_eq_nil_iff] at hemp
      rw [hemp] at hlen
      simp [apiCircuitBreakerConfig] at hlen

/-- The default AppError for the non-retryable user code INVALID_IMAGE_FORMAT. -/
def invalidFormatError : AppError := createAppError .INVALID_IMAGE_FORMAT

/-- An operation failing with the non-retryable INVALID_IMAGE_FORMAT error on
every invocation. -/
def alwaysInvalidFormat : Nat → Except JSError Unit :=
  fun _ => .error (.app invalidFormatError)

/-- Five consecutive failing `resilientApiCall`s, each carrying only the
non-retryable user error. -/
def fiveFailingCalls : List (Int × (Nat → Except JSError Unit)) :=
  [(0, alwaysInvalidFormat), (1, alwaysInvalidFormat), (2, alwaysInvalidFormat),
   (3, alwaysInvalidFormat), (4, alwaysInvalidFormat)]

/-- C10 witness: a failing invocation increments the initial breaker's count
to 1, and five consecutive user-error call sequences open the process-wide
breaker. -/
theorem C10_witness :
    (CircuitBreaker.execute apiCircuitBreakerConfig {} 0
        (Except.error (.app invalidFormatError) : Except JSError Unit)).finalState.failures =
      ({} : CircuitBreaker).failures + 1 ∧
    (runResilient {} fiveFailingCalls).state = .OPEN :=
  ⟨(C10_any_error_counts.1 apiCircuitBreakerConfig {} 0 (.app invalidFormatError) rfl).2,
   C10_any_error_counts.2 fiveFailingCalls rfl (by
     intro c hc
     fin_cases hc <;> exact ⟨.app invalidFormatError, rfl⟩)⟩
